import Mathlib

/-!
Verification of the PHARMAKON state-classification engine.

Shallow embedding of the two source modules:
* `PHARMAKON_v0.1.py` — the minimal 3-variable and refined 4-variable
  models with their rule-based position classifiers;
* `PHARMAKON_V10_A.py` — the detailed slider model: composite weighting,
  triangle position classification, debiasing recommendations, flag
  detection and the derivative function of the trajectory simulator.

Real numbers of the Python source are modelled as exact rationals `ℚ`;
all branch thresholds in the source are decimal literals that compare
identically under `ℚ` and IEEE doubles at the inputs considered here.
-/

namespace Pharmakon

/-! ## PHARMAKON v0.1 — minimal and refined states -/

/-- Clamp a value into `[0,1]`, as `max(0.0, min(1.0, x))` in the
dataclass `__post_init__` validators. -/
def clamp01 (x : ℚ) : ℚ := max 0 (min 1 x)

/-- `MinimalState`: three orthogonal dimensions S, H, B. -/
structure MinimalState where
  S : ℚ
  H : ℚ
  B : ℚ
deriving Repr, DecidableEq

/-- Construction of a `MinimalState`: the dataclass `__post_init__`
clamps every field into `[0,1]`. -/
def mkMinimalState (S H B : ℚ) : MinimalState :=
  { S := clamp01 S, H := clamp01 H, B := clamp01 B }

/-- `RefinedState`: S, H_somatic, H_cognitive, B. -/
structure RefinedState where
  S : ℚ
  H_somatic : ℚ
  H_cognitive : ℚ
  B : ℚ
deriving Repr, DecidableEq

/-- Construction of a `RefinedState`: the dataclass `__post_init__`
clamps every field into `[0,1]`. -/
def mkRefinedState (S Hs Hc B : ℚ) : RefinedState :=
  { S := clamp01 S, H_somatic := clamp01 Hs, H_cognitive := clamp01 Hc,
    B := clamp01 B }

/-- `RefinedState.bias_amplification`: if `H_cognitive < 0.3` the bias is
amplified by `(H_somatic / max(H_cognitive, 0.1)) * (1 - S)` and capped
at `1.0`; otherwise `B` is returned unchanged. -/
def RefinedState.bias_amplification (st : RefinedState) : ℚ :=
  if st.H_cognitive < 0.3 then
    min (st.B * ((st.H_somatic / max st.H_cognitive 0.1) * (1 - st.S))) 1
  else
    st.B

/-- `RefinedState.energy_mismatch`: `max(0.0, H_somatic - H_cognitive)`. -/
def RefinedState.energy_mismatch (st : RefinedState) : ℚ :=
  max 0 (st.H_somatic - st.H_cognitive)

/-- `classify_position` on a `MinimalState`.  The source returns a pair
`(position_name, description)`; the description is a presentation string
and only the position name is modelled. -/
def classify_position (st : MinimalState) : String :=
  if st.S < 0.2 then "Ego_Dissolution"
  else if st.H < 0.2 then "Energy_Collapse"
  else if st.B > 0.8 then "Delusional_Defense"
  else if st.S > 0.7 ∧ st.H > 0.6 ∧ st.B > 0.6 then
    "Position_1_Epistemic_Arrogance"
  else if st.S > 0.7 ∧ st.H > 0.6 ∧ st.B < 0.4 then
    "Position_3_Integrated_Competence"
  else if st.S > 0.5 ∧ st.B > 0.4 ∧ st.B < 0.7 then
    "Position_2_Meta_Awareness_Trap"
  else "Transitional_State"

/-- `classify_refined_position` on a `RefinedState` (position name only;
the description string is presentation). -/
def classify_refined_position (st : RefinedState) : String :=
  let B := st.bias_amplification
  let mismatch := st.energy_mismatch
  if st.S < 0.2 then "Ego_Dissolution"
  else if st.H_cognitive < 0.2 then "Cognitive_Collapse"
  else if mismatch > 0.4 then "Stress_Amplification"
  else if st.S > 0.7 ∧ (st.H_somatic > 0.6 ∨ st.H_cognitive > 0.6) ∧ B > 0.6 then
    "Position_1_Epistemic_Arrogance"
  else if st.S > 0.7 ∧ |st.H_somatic - st.H_cognitive| < 0.2 ∧ B < 0.4 then
    "Position_3_Integrated_Competence"
  else if st.S > 0.5 ∧ B > 0.4 ∧ B < 0.7 then
    "Position_2_Meta_Awareness_Trap"
  else "Transitional_State"

/-! ## PHARMAKON v10 — detailed state model -/

/-- The detailed state `State = Dict[str, float]`: a partial mapping from
variable name to value.  `none` models an absent dictionary key. -/
def State : Type := String → Option ℚ

/-- `state.get(k, d)` of the Python dictionary. -/
def State.get (s : State) (k : String) (d : ℚ) : ℚ := (s k).getD d

/-- The state with no keys at all. -/
def State.empty : State := fun _ => none

/-- `WEIGHTS`: the composite weight table.  The repository contains no
`weights_v10.json`, so `_load_weights` returns `_DEFAULT_WEIGHTS`, which
is the table embedded here. -/
def WEIGHTS : List (String × List (String × ℚ)) :=
  [ ("stress",
      [ ("Fear", 0.30), ("Anger", 0.20), ("Cortisol", 0.25),
        ("Sympathetic_Surge", 0.25) ]),
    ("positive",
      [ ("Joy", 0.30), ("Love", 0.20), ("Gratitude", 0.20),
        ("Contentment", 0.15), ("Hope", 0.15) ]),
    ("bias_cascade",
      [ ("Confirmation", 0.35), ("Dunning_Kruger", 0.30),
        ("Overconfidence", 0.25), ("Hindsight", 0.10) ]) ]

/-- `compute_composite(name, state)`: looks up the weight vector
(`WEIGHTS[name]` raises a lookup error when `name` is absent, modelled
as `none`) and returns `sum(state.get(k, 0.0) * w for k, w in
vec.items())`. -/
def compute_composite (name : String) (state : State) : Option ℚ :=
  match WEIGHTS.lookup name with
  | none => none
  | some vec => some (vec.foldl (fun acc p => acc + state.get p.1 0 * p.2) 0)

/-- Position 1 score of the triangle classifier:
`0.4*(dk+oc)/2 + 0.3*(1-mc) + 0.3*(1-lu)`. -/
def pos1_score (state : State) : ℚ :=
  0.4 * ((state.get "Dunning_Kruger" 0.3 + state.get "Overconfidence" 0.3) / 2) +
  0.3 * (1 - state.get "Meta_Cognition" 0.5) +
  0.3 * (1 - state.get "Lucidity" 1.0)

/-- Position 2 score of the triangle classifier:
`0.3*mc + 0.3*lu + 0.2*ro + 0.2*bias_cascade`. -/
def pos2_score (state : State) : ℚ :=
  0.3 * state.get "Meta_Cognition" 0.5 +
  0.3 * state.get "Lucidity" 1.0 +
  0.2 * state.get "Recursive_Overthinking" 0.0 +
  0.2 * (compute_composite "bias_cascade" state).getD 0

/-- Position 3 score of the triangle classifier:
`0.3*mc + 0.3*lu + 0.2*(1-ro) + 0.2*(1-eo)`. -/
def pos3_score (state : State) : ℚ :=
  0.3 * state.get "Meta_Cognition" 0.5 +
  0.3 * state.get "Lucidity" 1.0 +
  0.2 * (1 - state.get "Recursive_Overthinking" 0.0) +
  0.2 * (1 - state.get "Ego_Oscillation" 0.0)

/-- The `scores` dictionary built by `classify_triangle_position`, in
insertion order. -/
def triangle_scores (state : State) : List (String × ℚ) :=
  [ ("Position_1_Epistemic_Arrogance", pos1_score state),
    ("Position_2_Meta_Awareness_Trap", pos2_score state),
    ("Position_3_Integrated_Competence", pos3_score state) ]

/-- Python's `max(scores, key=scores.get)` over an association list in
insertion order: the current best is replaced only when a later value is
strictly greater, so the first maximal key wins. -/
def argmaxFirst (l : List (String × ℚ)) : String :=
  match l with
  | [] => ""
  | p :: rest => (rest.foldl (fun best q => if q.2 > best.2 then q else best) p).1

/-- Python's `s.replace("_", " ")`: for the single-character pattern it
replaces every underscore character by a space. -/
def underscoreToSpace (s : String) : String :=
  String.mk (s.toList.map (fun c => if c = '_' then ' ' else c))

/-- `classify_triangle_position(state)`: returns the winning position
name with underscores replaced by spaces, together with the score map. -/
def classify_triangle_position (state : State) : String × List (String × ℚ) :=
  let scores := triangle_scores state
  (underscoreToSpace (argmaxFirst scores), scores)

/-- Python's substring containment `pat in s`. -/
def strContains (s pat : String) : Bool :=
  s.toList.tails.any (fun t => pat.toList.isPrefixOf t)

/-- The recommendation block appended when the Position-1 checks match. -/
def pos1_block : List String :=
  [ "1. Scientific Method Training",
    "   - Focus on base rates and cause-absent evidence",
    "   - Evidence: d ≈ 1.0, lasts 6+ months",
    "   - Target: Build awareness of biases",
    "2. Cognitive Debiasing Training",
    "   - Mnemonics and Bayesian tools",
    "   - Awareness of cognitive pitfalls",
    "   - Evidence: Significant error reduction (p < .001)" ]

/-- The recommendation block appended when the Position-2 checks match. -/
def pos2_block : List String :=
  [ "1. Metacognitive Monitoring Practice",
    "   - Ongoing self-correction exercises",
    "   - Real-life applicability training",
    "   - Evidence: Sustained improvement with practice",
    "2. Reduce Recursive Overthinking",
    "   - Structured problem-solving frameworks",
    "   - Set limits on rumination cycles" ]

/-- The recommendation block appended when the Position-3 checks match. -/
def pos3_block : List String :=
  [ "1. Maintenance Practice",
    "   - Regular bias calibration exercises",
    "   - Position 3 is unstable - practice prevents regression",
    "2. Monitor Ego Oscillation",
    "   - Maintain stable self-coherence",
    "   - Regular reality-testing check-ins" ]

/-- The cross-cutting warning appended when the bias cascade exceeds 0.6. -/
def cascade_warning : String :=
  "⚠️  High bias cascade detected - Consider structured debiasing program"

/-- `recommend_debiasing(position, state)`: appends each position's block
when the corresponding substring check matches the label, then the
cross-cutting cascade warning. -/
def recommend_debiasing (position : String) (state : State) : List String :=
  (if strContains position "Position_1" || strContains position "Epistemic Arrogance"
    then pos1_block else []) ++
  (if strContains position "Position_2" || strContains position "Meta Awareness"
    then pos2_block else []) ++
  (if strContains position "Position_3" || strContains position "Integrated Competence"
    then pos3_block else []) ++
  (if (compute_composite "bias_cascade" state).getD 0 > 0.6
    then [cascade_warning] else [])

/-- The threshold configuration accepted by `detect_flags`. -/
structure Thresholds where
  bias_cluster : ℚ
  delusionality : ℚ
  ego_osc : ℚ
  overthink : ℚ
  dogma : ℚ
  narrative_collapse : ℚ
deriving Repr, DecidableEq

/-- The default thresholds substituted when `detect_flags` is called with
`thresholds=None`. -/
def defaultThresholds : Thresholds :=
  { bias_cluster := 0.6, delusionality := 0.4, ego_osc := 0.6,
    overthink := 0.7, dogma := 0.7, narrative_collapse := 0.7 }

/-- The flag dictionary returned by `detect_flags`. -/
structure FlagSet where
  Bias_Cascade : Bool
  Narrative_Collapse : Bool
  Moral_Rigidity : Bool
deriving Repr, DecidableEq

/-- `narrative_risk` computed inside `detect_flags`:
`1 - (0.4*Coherence + 0.3*Continuity + 0.3*Arc)` with dictionary
defaults 0.7, 0.7, 0.5. -/
def narrative_risk (state : State) : ℚ :=
  1 - (0.4 * state.get "Coherence" 0.7 +
       0.3 * state.get "Continuity" 0.7 +
       0.3 * state.get "Arc" 0.5)

/-- `detect_flags(state, thresholds)`: the three boolean pattern
detectors, with the default thresholds substituted for `None`. -/
def detect_flags (state : State) (thresholds : Option Thresholds) : FlagSet :=
  let th := thresholds.getD defaultThresholds
  let bias_cluster := (compute_composite "bias_cascade" state).getD 0
  { Bias_Cascade :=
      decide (bias_cluster > th.bias_cluster ∧
              state.get "Delusionality" 0 > th.delusionality),
    Narrative_Collapse := decide (narrative_risk state > th.narrative_collapse),
    Moral_Rigidity :=
      decide (state.get "Dogma_Fixation" 0 > th.dogma ∧
              state.get "Protagonist" 0.6 > 0.7) }

/-! ## Trajectory derivative function -/

/-- `derivatives(t, y, state_keys)`: reconstructs the state dictionary
from the ordered key list and value vector, and produces the derivative
vector.  Since the keys of a Python dictionary are distinct, writing
into `dy[idx[k]]` is component-wise assignment keyed by name; the branch
for each named variable fires only under the same membership conditions
as the source. -/
def derivatives (_t : ℚ) (y : List ℚ) (state_keys : List String) : List ℚ :=
  let state_dict : State := fun k => (state_keys.zip y).lookup k
  state_keys.map (fun k =>
    if k = "Fear" then
      -0.1 * state_dict.get "Fear" 0
    else if k = "Joy" then
      0.05 * (compute_composite "positive" state_dict).getD 0 -
        0.02 * state_dict.get "Joy" 0
    else if k = "Ego_Oscillation" ∧ "Lucidity" ∈ state_keys then
      0.1 * state_dict.get "Recursive_Overthinking" 0 -
        0.05 * state_dict.get "Lucidity" 0
    else if k = "Meta_Cognition" ∧ "Confirmation" ∈ state_keys then
      0.1 * (state_dict.get "Meta_Cognition" 0 *
        (1 - (compute_composite "bias_cascade" state_dict).getD 0))
    else if k = "Confirmation" ∧ "Meta_Cognition" ∈ state_keys then
      -0.05 * (state_dict.get "Meta_Cognition" 0 *
        (1 - (compute_composite "bias_cascade" state_dict).getD 0))
    else 0)

/-! ## Helper lemmas -/

lemma clamp01_nonneg (x : ℚ) : 0 ≤ clamp01 x := le_max_left 0 _

lemma clamp01_le_one (x : ℚ) : clamp01 x ≤ 1 :=
  max_le zero_le_one (min_le_left 1 x)

/-! ## Claims about PHARMAKON v0.1 -/

/-- C1: the claim says `classify_position` maps S=0.85, H=0.75, B=0.85 to
`Position_1_Epistemic_Arrogance`, and so do the source's own docstring
("Example: Reddit bride") and demo.  The code instead returns
`Delusional_Defense`, because the special case `B > 0.8` is evaluated
before the Position-1 branch; the final conjuncts show the Position-1
guard does hold at this state, so only the branch order blocks it. -/
theorem classify_position_reddit_bride :
    classify_position (mkMinimalState 0.85 0.75 0.85) = "Delusional_Defense" ∧
    (mkMinimalState 0.85 0.75 0.85).S > 0.7 ∧
    (mkMinimalState 0.85 0.75 0.85).H > 0.6 ∧
    (mkMinimalState 0.85 0.75 0.85).B > 0.6 := by
  norm_num [classify_position, mkMinimalState, clamp01]

/-- C2 counterexample: for S=0.8, H_somatic=0.9, H_cognitive=0.3, B=0.4
the amplified bias is not `min(0.4*(0.9/0.3)*(1-0.8), 1.0)` (= 0.24),
because `H_cognitive < 0.3` fails at exactly 0.3 and the amplification
branch is not taken. -/
theorem bias_amplification_stress_example_ne :
    ¬ ((mkRefinedState 0.8 0.9 0.3 0.4).bias_amplification =
        min (0.4 * ((0.9 : ℚ) / 0.3) * (1 - 0.8)) 1) := by
  norm_num [RefinedState.bias_amplification, mkRefinedState, clamp01]

/-- C2 amended: for S=0.8, H_somatic=0.9, H_cognitive=0.3, B=0.4 the
amplified bias is `B = 0.4` unchanged, since `H_cognitive = 0.3` is not
strictly below 0.3; the refined classifier then falls through to the
mismatch check (`0.6 > 0.4`) and returns `Stress_Amplification`. -/
theorem bias_amplification_stress_example :
    (mkRefinedState 0.8 0.9 0.3 0.4).bias_amplification = 0.4 ∧
    classify_refined_position (mkRefinedState 0.8 0.9 0.3 0.4) =
      "Stress_Amplification" := by
  constructor
  · norm_num [RefinedState.bias_amplification, mkRefinedState, clamp01]
  · norm_num [classify_refined_position, RefinedState.bias_amplification,
      RefinedState.energy_mismatch, mkRefinedState, clamp01]

/-- C7: constructing a minimal or refined state is total and clamps each
field into `[0,1]` via `max(0, min(1, x))`, so every constructed state
satisfies the range invariant on all fields. -/
theorem state_construction_clamps (s h b hs hc : ℚ) :
    ((mkMinimalState s h b).S = max 0 (min 1 s) ∧
     (mkMinimalState s h b).H = max 0 (min 1 h) ∧
     (mkMinimalState s h b).B = max 0 (min 1 b)) ∧
    (0 ≤ (mkMinimalState s h b).S ∧ (mkMinimalState s h b).S ≤ 1 ∧
     0 ≤ (mkMinimalState s h b).H ∧ (mkMinimalState s h b).H ≤ 1 ∧
     0 ≤ (mkMinimalState s h b).B ∧ (mkMinimalState s h b).B ≤ 1) ∧
    ((mkRefinedState s hs hc b).S = max 0 (min 1 s) ∧
     (mkRefinedState s hs hc b).H_somatic = max 0 (min 1 hs) ∧
     (mkRefinedState s hs hc b).H_cognitive = max 0 (min 1 hc) ∧
     (mkRefinedState s hs hc b).B = max 0 (min 1 b)) ∧
    (0 ≤ (mkRefinedState s hs hc b).S ∧ (mkRefinedState s hs hc b).S ≤ 1 ∧
     0 ≤ (mkRefinedState s hs hc b).H_somatic ∧
     (mkRefinedState s hs hc b).H_somatic ≤ 1 ∧
     0 ≤ (mkRefinedState s hs hc b).H_cognitive ∧
     (mkRefinedState s hs hc b).H_cognitive ≤ 1 ∧
     0 ≤ (mkRefinedState s hs hc b).B ∧ (mkRefinedState s hs hc b).B ≤ 1) := by
  exact ⟨⟨rfl, rfl, rfl⟩,
    ⟨clamp01_nonneg _, clamp01_le_one _, clamp01_nonneg _, clamp01_le_one _,
      clamp01_nonneg _, clamp01_le_one _⟩,
    ⟨rfl, rfl, rfl, rfl⟩,
    ⟨clamp01_nonneg _, clamp01_le_one _, clamp01_nonneg _, clamp01_le_one _,
      clamp01_nonneg _, clamp01_le_one _, clamp01_nonneg _, clamp01_le_one _⟩⟩

/-! ## Claims about the composite scorer -/

lemma foldl_add_eq_sum (f : String × ℚ → ℚ) :
    ∀ (l : List (String × ℚ)) (a : ℚ),
      l.foldl (fun acc p => acc + f p) a = a + (l.map f).sum := by
  intro l
  induction l with
  | nil => intro a; simp
  | cons p t ih => intro a; simp [ih, add_assoc]

/-- C4: `compute_composite` fails (the `WEIGHTS[name]` lookup error,
modelled as `none`) exactly when `name` is not a key of the weight
table; for a known name it always succeeds and returns the sum over the
vector's entries of `state.get(key, 0.0) * weight`, a missing state key
contributing `0` rather than an error. -/
theorem compute_composite_spec (name : String) (state : State) :
    (compute_composite name state = none ↔ WEIGHTS.lookup name = none) ∧
    (∀ vec, WEIGHTS.lookup name = some vec →
      compute_composite name state =
        some ((vec.map (fun p =>
          (match state p.1 with | some v => v | none => 0) * p.2)).sum)) := by
  constructor
  · unfold compute_composite
    cases h : WEIGHTS.lookup name <;> simp [h]
  · intro vec hv
    simp only [compute_composite, hv]
    rw [foldl_add_eq_sum (fun p => State.get state p.1 0 * p.2) vec 0]
    rw [zero_add]
    have hpt : ∀ p : String × ℚ,
        State.get state p.1 0 * p.2 =
          (match state p.1 with | some v => v | none => 0) * p.2 := by
      intro p
      unfold State.get
      cases state p.1 <;> rfl
    exact congrArg (fun l => some l.sum)
      (List.map_congr_left (fun p _ => hpt p))

/-- C4 witness: on the known composite `positive` and the state with no
keys at all, `compute_composite` succeeds and every missing key
contributes `0`, giving the score `0`. -/
theorem compute_composite_spec_witness :
    compute_composite "positive" State.empty = some 0 := by
  have h := (compute_composite_spec "positive" State.empty).2
    [("Joy", 0.30), ("Love", 0.20), ("Gratitude", 0.20), ("Contentment", 0.15),
      ("Hope", 0.15)] rfl
  rw [h]
  simp [State.empty]

lemma compute_composite_stress (state : State) :
    compute_composite "stress" state =
      some (0 + state.get "Fear" 0 * 0.30 + state.get "Anger" 0 * 0.20 +
        state.get "Cortisol" 0 * 0.25 + state.get "Sympathetic_Surge" 0 * 0.25) := rfl

lemma compute_composite_positive (state : State) :
    compute_composite "positive" state =
      some (0 + state.get "Joy" 0 * 0.30 + state.get "Love" 0 * 0.20 +
        state.get "Gratitude" 0 * 0.20 + state.get "Contentment" 0 * 0.15 +
        state.get "Hope" 0 * 0.15) := rfl

lemma compute_composite_bias_cascade (state : State) :
    compute_composite "bias_cascade" state =
      some (0 + state.get "Confirmation" 0 * 0.35 + state.get "Dunning_Kruger" 0 * 0.30 +
        state.get "Overconfidence" 0 * 0.25 + state.get "Hindsight" 0 * 0.10) := rfl

lemma get_bounds (state : State) (h : ∀ k v, state k = some v → 0 ≤ v ∧ v ≤ 1)
    (k : String) : 0 ≤ state.get k 0 ∧ state.get k 0 ≤ 1 := by
  unfold State.get
  cases hk : state k with
  | none => norm_num
  | some v => simpa using h k v hk

/-- C6: every default weight vector has non-negative weights summing to
1 within 1e-3, and consequently `compute_composite` on each of the three
default composite names maps any state with values in `[0,1]` to a score
in `[0,1]`. -/
theorem composite_range :
    (∀ p ∈ WEIGHTS, (∀ q ∈ p.2, 0 ≤ q.2) ∧
      |((p.2.map Prod.snd).sum : ℚ) - 1| ≤ 1 / 1000) ∧
    (∀ name ∈ ["stress", "positive", "bias_cascade"], ∀ state : State,
      (∀ k v, state k = some v → 0 ≤ v ∧ v ≤ 1) →
      ∃ r, compute_composite name state = some r ∧ 0 ≤ r ∧ r ≤ 1) := by
  constructor
  · intro p hp
    fin_cases hp <;> refine ⟨?_, by norm_num⟩ <;> intro q hq <;> fin_cases hq <;> norm_num
  · intro name hname state hstate
    have hget := get_bounds state hstate
    fin_cases hname
    · obtain ⟨a1, b1⟩ := hget "Fear"
      obtain ⟨a2, b2⟩ := hget "Anger"
      obtain ⟨a3, b3⟩ := hget "Cortisol"
      obtain ⟨a4, b4⟩ := hget "Sympathetic_Surge"
      exact ⟨_, compute_composite_stress state, by nlinarith, by nlinarith⟩
    · obtain ⟨a1, b1⟩ := hget "Joy"
      obtain ⟨a2, b2⟩ := hget "Love"
      obtain ⟨a3, b3⟩ := hget "Gratitude"
      obtain ⟨a4, b4⟩ := hget "Contentment"
      obtain ⟨a5, b5⟩ := hget "Hope"
      exact ⟨_, compute_composite_positive state, by nlinarith, by nlinarith⟩
    · obtain ⟨a1, b1⟩ := hget "Confirmation"
      obtain ⟨a2, b2⟩ := hget "Dunning_Kruger"
      obtain ⟨a3, b3⟩ := hget "Overconfidence"
      obtain ⟨a4, b4⟩ := hget "Hindsight"
      exact ⟨_, compute_composite_bias_cascade state, by nlinarith, by nlinarith⟩

/-- C6 witness: the `stress` weight vector sums to 1 within 1e-3, and
the `stress` composite of the empty state (all values vacuously in
range) is a score in `[0,1]`. -/
theorem composite_range_witness :
    |(([("Fear", (0.30 : ℚ)), ("Anger", 0.20), ("Cortisol", 0.25),
        ("Sympathetic_Surge", 0.25)].map Prod.snd).sum : ℚ) - 1| ≤ 1 / 1000 ∧
    ∃ r, compute_composite "stress" State.empty = some r ∧ 0 ≤ r ∧ r ≤ 1 :=
  ⟨(composite_range.1 ("stress",
      [("Fear", 0.30), ("Anger", 0.20), ("Cortisol", 0.25),
        ("Sympathetic_Surge", 0.25)]) (by simp [WEIGHTS])).2,
   composite_range.2 "stress" (by simp) State.empty (by intro k v h; cases h)⟩

/-! ## Claims about the flag detector -/

/-- C5: with default thresholds, `detect_flags` reports
`Narrative_Collapse` exactly when the narrative risk
`1 - (0.4*Coherence + 0.3*Continuity + 0.3*Arc)` (defaults 0.7, 0.7,
0.5) exceeds 0.7 strictly; at a risk of exactly 0.7 the flag is false. -/
theorem narrative_collapse_iff (state : State) :
    ((detect_flags state none).Narrative_Collapse = true ↔
      narrative_risk state > 0.7) ∧
    (narrative_risk state = 0.7 →
      (detect_flags state none).Narrative_Collapse = false) := by
  constructor
  · simp [detect_flags, defaultThresholds]
  · intro h
    simp [detect_flags, defaultThresholds, h]

/-- A detailed state whose narrative risk is exactly the default
threshold 0.7: Coherence = 0, Continuity = 0, Arc = 1. -/
def boundary_state : State :=
  fun k => if k = "Coherence" then some 0
    else if k = "Continuity" then some 0
    else if k = "Arc" then some 1 else none

/-- C5 witness: at the boundary state the risk is exactly 0.7 and the
`Narrative_Collapse` flag is off. -/
theorem narrative_collapse_iff_witness :
    (detect_flags boundary_state none).Narrative_Collapse = false := by
  apply (narrative_collapse_iff boundary_state).2
  simp [narrative_risk, boundary_state, State.get]
  norm_num

/-! ## Claims about the trajectory derivative function -/

lemma lookup_zip_of_nodup :
    ∀ (keys : List String) (y : List ℚ) (i : ℕ) (k : String) (v : ℚ),
      keys.Nodup → keys[i]? = some k → y[i]? = some v →
      (keys.zip y).lookup k = some v := by
  intro keys
  induction keys with
  | nil => intro y i k v _ hk _; simp at hk
  | cons a rest ih =>
    intro y i k v hnd hk hy
    cases y with
    | nil => simp at hy
    | cons b ys =>
      cases i with
      | zero =>
        simp at hk hy
        subst hk; subst hy
        simp [List.lookup]
      | succ j =>
        simp at hk hy
        have hmem : k ∈ rest := by
          obtain ⟨hlt, he⟩ := List.getElem?_eq_some.mp hk
          exact he ▸ List.getElem_mem hlt
        have hne : a ≠ k := by
          intro he
          exact (List.nodup_cons.mp hnd).1 (he ▸ hmem)
        have hbeq : (k == a) = false := by
          simp [hne.symm]
        simp [List.lookup, hbeq]
        exact ih ys j k v (List.nodup_cons.mp hnd).2 hk hy

/-- C8: whenever `Fear` is among the (distinct) state keys, the
derivative vector returned by `derivatives` carries `-0.1 * Fear` at the
Fear component, which is strictly negative whenever `Fear > 0` — the
continuous Fear trajectory `dF/dt = -0.1 F` therefore decays
monotonically toward 0. -/
theorem fear_derivative (t : ℚ) (keys : List String) (y : List ℚ) (i : ℕ) (v : ℚ)
    (hnd : keys.Nodup) (hk : keys[i]? = some "Fear") (hy : y[i]? = some v) :
    (derivatives t y keys)[i]? = some (-0.1 * v) ∧ (0 < v → -0.1 * v < 0) := by
  constructor
  · have hl : (keys.zip y).lookup "Fear" = some v :=
      lookup_zip_of_nodup keys y i "Fear" v hnd hk hy
    simp only [derivatives, List.getElem?_map, hk, Option.map_some']
    simp [State.get, hl]
  · intro hv; nlinarith

/-- C8 witness: the spec's test trajectory starts at `Fear = 0.8`; its
derivative is `-0.08`, strictly negative. -/
theorem fear_derivative_witness :
    (derivatives 0 [(0.8 : ℚ)] ["Fear"])[0]? = some (-(0.1 : ℚ) * 0.8) ∧
    ((0 : ℚ) < 0.8 → -(0.1 : ℚ) * 0.8 < 0) :=
  fear_derivative 0 ["Fear"] [0.8] 0 0.8 (by simp) (by simp) (by simp)

/-! ## Claims about the triangle classifier -/

/-- The maximum of the three triangle position scores. -/
def maxScore (state : State) : ℚ :=
  max (pos1_score state) (max (pos2_score state) (pos3_score state))

lemma eq_max3_of (a b c x : ℚ) (hx : x = a ∨ x = b ∨ x = c)
    (ha : a ≤ x) (hb : b ≤ x) (hc : c ≤ x) : max a (max b c) = x := by
  apply le_antisymm (max_le ha (max_le hb hc))
  rcases hx with h | h | h
  · exact h ▸ le_max_left _ _
  · exact h ▸ le_max_of_le_right (le_max_left _ _)
  · exact h ▸ le_max_of_le_right (le_max_right _ _)

lemma winner_cases (state : State) :
    ((classify_triangle_position state).1 = "Position 1 Epistemic Arrogance" ∧
      pos1_score state = maxScore state) ∨
    ((classify_triangle_position state).1 = "Position 2 Meta Awareness Trap" ∧
      pos2_score state = maxScore state) ∨
    ((classify_triangle_position state).1 = "Position 3 Integrated Competence" ∧
      pos3_score state = maxScore state) := by
  have hu1 : underscoreToSpace "Position_1_Epistemic_Arrogance" =
      "Position 1 Epistemic Arrogance" := by decide
  have hu2 : underscoreToSpace "Position_2_Meta_Awareness_Trap" =
      "Position 2 Meta Awareness Trap" := by decide
  have hu3 : underscoreToSpace "Position_3_Integrated_Competence" =
      "Position 3 Integrated Competence" := by decide
  simp only [classify_triangle_position, triangle_scores, argmaxFirst, List.foldl]
  by_cases h12 : pos2_score state > pos1_score state
  · simp only [if_pos h12]
    by_cases h23 : pos3_score state > pos2_score state
    · simp only [if_pos h23]
      right; right
      refine ⟨hu3, ?_⟩
      exact (eq_max3_of _ _ _ _ (Or.inr (Or.inr rfl)) (by linarith) (by linarith)
        le_rfl).symm
    · simp only [if_neg h23]
      right; left
      refine ⟨hu2, ?_⟩
      exact (eq_max3_of _ _ _ _ (Or.inr (Or.inl rfl)) (by linarith) le_rfl
        (by linarith)).symm
  · simp only [if_neg h12]
    by_cases h13 : pos3_score state > pos1_score state
    · simp only [if_pos h13]
      right; right
      refine ⟨hu3, ?_⟩
      exact (eq_max3_of _ _ _ _ (Or.inr (Or.inr rfl)) (by linarith) (by linarith)
        le_rfl).symm
    · simp only [if_neg h13]
      left
      refine ⟨hu1, ?_⟩
      exact (eq_max3_of _ _ _ _ (Or.inl rfl) le_rfl (by linarith) (by linarith)).symm

/-- C3: when two or more of the three triangle position scores are equal
and maximal, `classify_triangle_position` selects the lowest-numbered
position among them: Position 1 whenever its score is maximal, otherwise
Position 2 (the remaining tie case). -/
theorem triangle_tie_break (state : State)
    (h : (pos1_score state = maxScore state ∧ pos2_score state = maxScore state) ∨
         (pos1_score state = maxScore state ∧ pos3_score state = maxScore state) ∨
         (pos2_score state = maxScore state ∧ pos3_score state = maxScore state)) :
    (classify_triangle_position state).1 =
      (if pos1_score state = maxScore state then "Position 1 Epistemic Arrogance"
       else "Position 2 Meta Awareness Trap") := by
  have hu1 : underscoreToSpace "Position_1_Epistemic_Arrogance" =
      "Position 1 Epistemic Arrogance" := by decide
  have hu2 : underscoreToSpace "Position_2_Meta_Awareness_Trap" =
      "Position 2 Meta Awareness Trap" := by decide
  have hp1le : pos1_score state ≤ maxScore state := le_max_left _ _
  have hp2le : pos2_score state ≤ maxScore state :=
    le_max_of_le_right (le_max_left _ _)
  have hp3le : pos3_score state ≤ maxScore state :=
    le_max_of_le_right (le_max_right _ _)
  by_cases h1 : pos1_score state = maxScore state
  · rw [if_pos h1]
    have hn2 : ¬ pos2_score state > pos1_score state :=
      not_lt.mpr (by rw [h1]; exact hp2le)
    have hn3 : ¬ pos3_score state > pos1_score state :=
      not_lt.mpr (by rw [h1]; exact hp3le)
    simp only [classify_triangle_position, triangle_scores, argmaxFirst, List.foldl,
      if_neg hn2, if_neg hn3]
    exact hu1
  · rw [if_neg h1]
    rcases h with ⟨ha, _⟩ | ⟨ha, _⟩ | ⟨h2, h3⟩
    · exact absurd ha h1
    · exact absurd ha h1
    have hgt : pos2_score state > pos1_score state := by
      rw [h2]; exact lt_of_le_of_ne hp1le h1
    have hn3 : ¬ pos3_score state > pos2_score state := by
      rw [h2, h3]; exact lt_irrefl _
    simp only [classify_triangle_position, triangle_scores, argmaxFirst, List.foldl,
      if_pos hgt, if_neg hn3]
    exact hu2

/-- A state in which Position 2 and Position 3 tie for the maximal score
(both 0.65, with Position 1 at 0.27): only `Recursive_Overthinking` is
set, to 1. -/
def tie_state : State :=
  fun k => if k = "Recursive_Overthinking" then some 1 else none

/-- C3 witness: on `tie_state` the scores of Positions 2 and 3 are equal
and maximal and Position 1 is below them, so the tie resolves to
Position 2, the lowest-numbered maximal position. -/
theorem triangle_tie_break_witness :
    (classify_triangle_position tie_state).1 = "Position 2 Meta Awareness Trap" := by
  have e1 : pos1_score tie_state = 27 / 100 := by
    simp [pos1_score, tie_state, State.get]
    norm_num
  have e2 : pos2_score tie_state = 13 / 20 := by
    simp [pos2_score, compute_composite_bias_cascade, tie_state, State.get]
    norm_num
  have e3 : pos3_score tie_state = 13 / 20 := by
    simp [pos3_score, tie_state, State.get]
    norm_num
  have emax : maxScore tie_state = 13 / 20 := by
    rw [maxScore, e1, e2, e3]
    norm_num
  have h := triangle_tie_break tie_state
    (Or.inr (Or.inr ⟨by rw [e2, emax], by rw [e3, emax]⟩))
  rw [if_neg (by rw [e1, emax]; norm_num)] at h
  exact h

/-- C9: the label returned by `classify_triangle_position` is the winning
key of the returned score map with every underscore replaced by a space;
consequently it differs from every key of the score map and contains
none of the substrings `Position_1`, `Position_2`, `Position_3`. -/
theorem triangle_label_spec (state : State) :
    (∃ p ∈ triangle_scores state, p.2 = maxScore state ∧
      (classify_triangle_position state).1 = underscoreToSpace p.1) ∧
    (∀ p ∈ triangle_scores state, (classify_triangle_position state).1 ≠ p.1) ∧
    strContains (classify_triangle_position state).1 "Position_1" = false ∧
    strContains (classify_triangle_position state).1 "Position_2" = false ∧
    strContains (classify_triangle_position state).1 "Position_3" = false := by
  rcases winner_cases state with ⟨hl, hm⟩ | ⟨hl, hm⟩ | ⟨hl, hm⟩ <;>
    rw [hl] <;>
    refine ⟨?_, ?_, by decide, by decide, by decide⟩
  · exact ⟨("Position_1_Epistemic_Arrogance", pos1_score state),
      by simp [triangle_scores], hm,
      show ("Position 1 Epistemic Arrogance" : String) =
        underscoreToSpace "Position_1_Epistemic_Arrogance" from by decide⟩
  · intro p hp
    simp [triangle_scores] at hp
    rcases hp with h | h | h <;> subst h <;> simp
  · exact ⟨("Position_2_Meta_Awareness_Trap", pos2_score state),
      by simp [triangle_scores], hm,
      show ("Position 2 Meta Awareness Trap" : String) =
        underscoreToSpace "Position_2_Meta_Awareness_Trap" from by decide⟩
  · intro p hp
    simp [triangle_scores] at hp
    rcases hp with h | h | h <;> subst h <;> simp
  · exact ⟨("Position_3_Integrated_Competence", pos3_score state),
      by simp [triangle_scores], hm,
      show ("Position 3 Integrated Competence" : String) =
        underscoreToSpace "Position_3_Integrated_Competence" from by decide⟩
  · intro p hp
    simp [triangle_scores] at hp
    rcases hp with h | h | h <;> subst h <;> simp

/-- C9 witness: at the empty state the returned label differs from the
score-map key `Position_3_Integrated_Competence` (the winning key there),
instantiating the key-inequality part at a concrete member of the score
map. -/
theorem triangle_label_spec_witness :
    (classify_triangle_position State.empty).1 ≠ "Position_3_Integrated_Competence" :=
  (triangle_label_spec State.empty).2.1
    ("Position_3_Integrated_Competence", pos3_score State.empty)
    (by simp [triangle_scores])

/-- C10: feeding the label returned by `classify_triangle_position` back
into `recommend_debiasing` always yields the winning position's
recommendation block (as a prefix of the returned list): the
`Position_N` substring checks never match the space-separated label, but
the space-form checks (`Epistemic Arrogance`, `Meta Awareness`,
`Integrated Competence`) do. -/
theorem recommend_matches_winner (state : State) :
    ((classify_triangle_position state).1 = "Position 1 Epistemic Arrogance" ∧
      strContains (classify_triangle_position state).1 "Position_1" = false ∧
      strContains (classify_triangle_position state).1 "Epistemic Arrogance" = true ∧
      pos1_block <+: recommend_debiasing (classify_triangle_position state).1 state) ∨
    ((classify_triangle_position state).1 = "Position 2 Meta Awareness Trap" ∧
      strContains (classify_triangle_position state).1 "Position_2" = false ∧
      strContains (classify_triangle_position state).1 "Meta Awareness" = true ∧
      pos2_block <+: recommend_debiasing (classify_triangle_position state).1 state) ∨
    ((classify_triangle_position state).1 = "Position 3 Integrated Competence" ∧
      strContains (classify_triangle_position state).1 "Position_3" = false ∧
      strContains (classify_triangle_position state).1 "Integrated Competence" = true ∧
      pos3_block <+: recommend_debiasing (classify_triangle_position state).1 state) := by
  rcases winner_cases state with ⟨hl, _⟩ | ⟨hl, _⟩ | ⟨hl, _⟩
  · left
    refine ⟨hl, by rw [hl]; decide, by rw [hl]; decide, ?_⟩
    rw [hl]
    have hr : recommend_debiasing "Position 1 Epistemic Arrogance" state =
        pos1_block ++
          (if (compute_composite "bias_cascade" state).getD 0 > 0.6
            then [cascade_warning] else []) := by
      simp only [recommend_debiasing,
        show strContains "Position 1 Epistemic Arrogance" "Position_1" = false from
          by decide,
        show strContains "Position 1 Epistemic Arrogance" "Epistemic Arrogance" = true from
          by decide,
        show strContains "Position 1 Epistemic Arrogance" "Position_2" = false from
          by decide,
        show strContains "Position 1 Epistemic Arrogance" "Meta Awareness" = false from
          by decide,
        show strContains "Position 1 Epistemic Arrogance" "Position_3" = false from
          by decide,
        show strContains "Position 1 Epistemic Arrogance" "Integrated Competence" = false from
          by decide]
      simp
    rw [hr]
    exact List.prefix_append _ _
  · right; left
    refine ⟨hl, by rw [hl]; decide, by rw [hl]; decide, ?_⟩
    rw [hl]
    have hr : recommend_debiasing "Position 2 Meta Awareness Trap" state =
        pos2_block ++
          (if (compute_composite "bias_cascade" state).getD 0 > 0.6
            then [cascade_warning] else []) := by
      simp only [recommend_debiasing,
        show strContains "Position 2 Meta Awareness Trap" "Position_1" = false from
          by decide,
        show strContains "Position 2 Meta Awareness Trap" "Epistemic Arrogance" = false from
          by decide,
        show strContains "Position 2 Meta Awareness Trap" "Position_2" = false from
          by decide,
        show strContains "Position 2 Meta Awareness Trap" "Meta Awareness" = true from
          by decide,
        show strContains "Position 2 Meta Awareness Trap" "Position_3" = false from
          by decide,
        show strContains "Position 2 Meta Awareness Trap" "Integrated Competence" = false from
          by decide]
      simp
    rw [hr]
    exact List.prefix_append _ _
  · right; right
    refine ⟨hl, by rw [hl]; decide, by rw [hl]; decide, ?_⟩
    rw [hl]
    have hr : recommend_debiasing "Position 3 Integrated Competence" state =
        pos3_block ++
          (if (compute_composite "bias_cascade" state).getD 0 > 0.6
            then [cascade_warning] else []) := by
      simp only [recommend_debiasing,
        show strContains "Position 3 Integrated Competence" "Position_1" = false from
          by decide,
        show strContains "Position 3 Integrated Competence" "Epistemic Arrogance" = false from
          by decide,
        show strContains "Position 3 Integrated Competence" "Position_2" = false from
          by decide,
        show strContains "Position 3 Integrated Competence" "Meta Awareness" = false from
          by decide,
        show strContains "Position 3 Integrated Competence" "Position_3" = false from
          by decide,
        show strContains "Position 3 Integrated Competence" "Integrated Competence" = true from
          by decide]
      simp
    rw [hr]
    exact List.prefix_append _ _

end Pharmakon
